import Mathlib

/-!
Shallow embedding of the tndrly client library (Rust) in Lean 4, together with
theorems settling the specification claims about it.

Embedded sources:
- src/vnets/types.rs : request/response types for the Virtual TestNets API
  (builders, RPC-endpoint resolution, nested chain-config accessor, serde
  serialization shape).
- src/simulation/api.rs : route construction and the share URL synthesis for
  the simulation lifecycle operations.

Conventions: Rust u64/u32/u8 become Nat (no arithmetic near overflow occurs in
the embedded code), Rust String becomes String, Option becomes Option, and
serde-serialized JSON bodies become an explicit list of key/value fields in
declaration order, where a field marked skip_serializing_if Option.is_none
contributes nothing when the option is none.  Rust methods whose name collides
with a Lean structure projection get a set_ prefix; the doc comment names the
original.  The Rust fields named from and to are embedded as from_ and to_
(from and to are reserved in Lean).
-/

namespace Tndrly

/-! ### Character and string helpers

Rust str::to_lowercase and str::contains, embedded on the character lists
underlying Lean strings.  Lowercasing is modelled with the ASCII case mapping
(Char.toLower); the tokens searched for by the embedded code ("public",
"admin") are ASCII.
-/

/-- Embeds Rust str::to_lowercase (ASCII case mapping). -/
def rustToLower (s : String) : String :=
  String.mk (s.data.map Char.toLower)

/-- True when the first list is an initial run of the second. -/
def prefixChars : List Char → List Char → Bool
  | [], _ => true
  | _ :: _, [] => false
  | a :: as, b :: bs => a == b && prefixChars as bs

/-- True when needle occurs contiguously inside hay; embeds Rust
str::contains with a literal pattern. -/
def containsChars (needle : List Char) : List Char → Bool
  | [] => prefixChars needle []
  | b :: bs => prefixChars needle (b :: bs) || containsChars needle bs

/-- Embeds name.to_lowercase().contains(tok) from VNetRpcs::public / admin. -/
def nameHasToken (tok : String) (name : String) : Bool :=
  containsChars tok.data (rustToLower name).data

/-! ### src/vnets/types.rs : request and response types -/

/-- Fork configuration for requests (struct ForkConfig). -/
structure ForkConfig where
  network_id : Nat
  block_number : Option Nat

/-- Virtual network configuration for requests (struct VirtualNetworkConfig). -/
structure VirtualNetworkConfig where
  chain_id : Nat
  base_fee_per_gas : Option Nat

/-- State sync configuration (struct SyncStateConfig). -/
structure SyncStateConfig where
  enabled : Bool

/-- Explorer page configuration (struct ExplorerPageConfig). -/
structure ExplorerPageConfig where
  enabled : Bool
  verification_visibility : String

/-- Request to create a new Virtual TestNet (struct CreateVNetRequest). -/
structure CreateVNetRequest where
  slug : String
  display_name : String
  fork_config : ForkConfig
  virtual_network_config : VirtualNetworkConfig
  sync_state_config : Option SyncStateConfig
  explorer_page_config : Option ExplorerPageConfig

/-- CreateVNetRequest::new. -/
def CreateVNetRequest.new (slug display_name : String) (network_id : Nat) :
    CreateVNetRequest where
  slug := slug
  display_name := display_name
  fork_config := { network_id := network_id, block_number := none }
  virtual_network_config := { chain_id := network_id, base_fee_per_gas := none }
  sync_state_config := none
  explorer_page_config := none

/-- CreateVNetRequest::block_number (builder). -/
def CreateVNetRequest.block_number (r : CreateVNetRequest) (block : Nat) :
    CreateVNetRequest :=
  { r with fork_config := { r.fork_config with block_number := some block } }

/-- CreateVNetRequest::chain_id (builder). -/
def CreateVNetRequest.chain_id (r : CreateVNetRequest) (chain_id : Nat) :
    CreateVNetRequest :=
  { r with virtual_network_config :=
      { r.virtual_network_config with chain_id := chain_id } }

/-- CreateVNetRequest::base_fee_per_gas (builder). -/
def CreateVNetRequest.base_fee_per_gas (r : CreateVNetRequest) (fee : Nat) :
    CreateVNetRequest :=
  { r with virtual_network_config :=
      { r.virtual_network_config with base_fee_per_gas := some fee } }

/-- CreateVNetRequest::sync_state (builder). -/
def CreateVNetRequest.sync_state (r : CreateVNetRequest) (enabled : Bool) :
    CreateVNetRequest :=
  let cfg : SyncStateConfig := { enabled := enabled }
  { r with sync_state_config := some cfg }

/-- CreateVNetRequest::explorer_page (builder). -/
def CreateVNetRequest.explorer_page (r : CreateVNetRequest) (enabled : Bool)
    (verification_visibility : String) : CreateVNetRequest :=
  let cfg : ExplorerPageConfig :=
    { enabled := enabled, verification_visibility := verification_visibility }
  { r with explorer_page_config := some cfg }

/-- Fork configuration from API response (struct ForkConfigResponse);
block_number arrives as an optional hex string. -/
structure ForkConfigResponse where
  network_id : Nat
  block_number : Option String

/-- Chain configuration nested in VirtualNetworkConfigResponse
(struct ChainConfig). -/
structure ChainConfig where
  chain_id : Nat

/-- Virtual network configuration from API response
(struct VirtualNetworkConfigResponse).  The pre-funded accounts field is
opaque to the claims and is embedded as an optional count of opaque values. -/
structure VirtualNetworkConfigResponse where
  chain_config : Option ChainConfig
  base_fee_per_gas : Option Nat
  accounts : Option (List Unit)

/-- VirtualNetworkConfigResponse::chain_id: get the chain ID from the nested
chain_config. -/
def VirtualNetworkConfigResponse.chain_id
    (r : VirtualNetworkConfigResponse) : Option Nat :=
  r.chain_config.map ChainConfig.chain_id

/-- Single RPC endpoint (struct RpcEndpoint). -/
structure RpcEndpoint where
  name : String
  url : String

/-- Collection of RPC endpoints for a VNet (struct VNetRpcs). -/
structure VNetRpcs where
  endpoints : List RpcEndpoint

/-- VNetRpcs::public: the url of the first endpoint whose lowercased name
contains "public". -/
def VNetRpcs.public (r : VNetRpcs) : Option String :=
  (r.endpoints.find? (fun e => nameHasToken "public" e.name)).map RpcEndpoint.url

/-- VNetRpcs::admin: the url of the first endpoint whose lowercased name
contains "admin". -/
def VNetRpcs.admin (r : VNetRpcs) : Option String :=
  (r.endpoints.find? (fun e => nameHasToken "admin" e.name)).map RpcEndpoint.url

/-- Query parameters for listing VNets (struct ListVNetsQuery). -/
structure ListVNetsQuery where
  slug : Option String
  page : Option Nat
  per_page : Option Nat

/-- Request to delete multiple VNets (struct DeleteVNetsRequest). -/
structure DeleteVNetsRequest where
  ids : List String

/-- DeleteVNetsRequest::single. -/
def DeleteVNetsRequest.single (id : String) : DeleteVNetsRequest where
  ids := [id]

/-- DeleteVNetsRequest::multiple. -/
def DeleteVNetsRequest.multiple (ids : List String) : DeleteVNetsRequest where
  ids := ids

/-- Request to fork a VNet (struct ForkVNetRequest); source_vnet_id
serializes under the key srcTestnetId. -/
structure ForkVNetRequest where
  source_vnet_id : String
  slug : String
  display_name : String
  block_number : Option Nat

/-- ForkVNetRequest::new. -/
def ForkVNetRequest.new (source_vnet_id slug display_name : String) :
    ForkVNetRequest where
  source_vnet_id := source_vnet_id
  slug := slug
  display_name := display_name
  block_number := none

/-- ForkVNetRequest::block_number (builder; set_ prefix avoids the clash with
the field projection). -/
def ForkVNetRequest.set_block_number (r : ForkVNetRequest) (block : Nat) :
    ForkVNetRequest :=
  { r with block_number := some block }

/-- Query parameters for listing VNet transactions
(struct ListVNetTransactionsQuery). -/
structure ListVNetTransactionsQuery where
  address : Option String
  status : Option Bool
  page : Option Nat
  per_page : Option Nat

/-- Request to simulate a transaction on a VNet
(struct VNetSimulationRequest); transaction_type serializes under the key
type, and the Rust fields from and to are embedded as from_ and to_. -/
structure VNetSimulationRequest where
  from_ : String
  to_ : String
  input : String
  value : Option String
  gas : Option Nat
  gas_price : Option String
  max_fee_per_gas : Option String
  max_priority_fee_per_gas : Option String
  transaction_type : Option Nat
  nonce : Option Nat

/-- VNetSimulationRequest::new. -/
def VNetSimulationRequest.new (from_ to_ input : String) :
    VNetSimulationRequest where
  from_ := from_
  to_ := to_
  input := input
  value := none
  gas := none
  gas_price := none
  max_fee_per_gas := none
  max_priority_fee_per_gas := none
  transaction_type := none
  nonce := none

/-- VNetSimulationRequest::max_fee_per_gas (builder; set_ prefix avoids the
clash with the field projection).  Also sets transaction type to 2. -/
def VNetSimulationRequest.set_max_fee_per_gas (r : VNetSimulationRequest)
    (fee : String) : VNetSimulationRequest :=
  { r with max_fee_per_gas := some fee, transaction_type := some 2 }

/-- VNetSimulationRequest::max_priority_fee_per_gas (builder; set_ prefix
avoids the clash with the field projection).  Also sets transaction type
to 2. -/
def VNetSimulationRequest.set_max_priority_fee_per_gas
    (r : VNetSimulationRequest) (fee : String) : VNetSimulationRequest :=
  { r with max_priority_fee_per_gas := some fee, transaction_type := some 2 }

/-- VNetSimulationRequest::transaction_type (builder; set_ prefix avoids the
clash with the field projection). -/
def VNetSimulationRequest.set_transaction_type (r : VNetSimulationRequest)
    (tx_type : Nat) : VNetSimulationRequest :=
  { r with transaction_type := some tx_type }

/-- Request to update a Virtual TestNet (struct UpdateVNetRequest). -/
structure UpdateVNetRequest where
  display_name : Option String
  slug : Option String
  sync_state_config : Option SyncStateConfig
  explorer_page_config : Option ExplorerPageConfig

/-- Access list item for EIP-2930 transactions (struct AccessListItem). -/
structure AccessListItem where
  address : String
  storage_keys : List String

/-- Request to send a transaction on a Virtual TestNet
(struct SendVNetTransactionRequest); the Rust field from is embedded as
from_. -/
structure SendVNetTransactionRequest where
  from_ : String
  to_ : String
  input : Option String
  value : Option String
  gas : Option Nat
  gas_price : Option String
  max_fee_per_gas : Option String
  max_priority_fee_per_gas : Option String
  access_list : Option (List AccessListItem)

/-! ### Wire shape of serde serialization

A serialized request body is modelled as the ordered list of JSON fields it
contains: struct fields appear in declaration order, a field marked with
serde skip_serializing_if Option.is_none contributes no entry when the option
is none, and serde rename attributes use the renamed key.
-/

/-- JSON values, as far as the wire shapes of this library need them. -/
inductive Json where
  | str : String → Json
  | num : Nat → Json
  | bool : Bool → Json
  | arr : List Json → Json
  | obj : List (String × Json) → Json

/-- The fields contributed by an optional struct field: none of them when the
option is none (serde skip_serializing_if Option.is_none), one entry when it
is some. -/
def optField {α : Type} (key : String) (o : Option α) (f : α → Json) :
    List (String × Json) :=
  match o with
  | none => []
  | some a => [(key, f a)]

/-- Serialized shape of ForkConfig. -/
def ForkConfig.toJsonFields (c : ForkConfig) : List (String × Json) :=
  [("network_id", Json.num c.network_id)] ++
    optField "block_number" c.block_number Json.num

/-- Serialized shape of VirtualNetworkConfig. -/
def VirtualNetworkConfig.toJsonFields (c : VirtualNetworkConfig) :
    List (String × Json) :=
  [("chain_id", Json.num c.chain_id)] ++
    optField "base_fee_per_gas" c.base_fee_per_gas Json.num

/-- Serialized shape of SyncStateConfig. -/
def SyncStateConfig.toJsonFields (c : SyncStateConfig) : List (String × Json) :=
  [("enabled", Json.bool c.enabled)]

/-- Serialized shape of ExplorerPageConfig. -/
def ExplorerPageConfig.toJsonFields (c : ExplorerPageConfig) :
    List (String × Json) :=
  [("enabled", Json.bool c.enabled),
   ("verification_visibility", Json.str c.verification_visibility)]

/-- Serialized shape of CreateVNetRequest. -/
def CreateVNetRequest.toJsonFields (r : CreateVNetRequest) :
    List (String × Json) :=
  [("slug", Json.str r.slug),
   ("display_name", Json.str r.display_name),
   ("fork_config", Json.obj r.fork_config.toJsonFields),
   ("virtual_network_config", Json.obj r.virtual_network_config.toJsonFields)] ++
    optField "sync_state_config" r.sync_state_config
      (fun c => Json.obj c.toJsonFields) ++
    optField "explorer_page_config" r.explorer_page_config
      (fun c => Json.obj c.toJsonFields)

/-- Serialized shape of ForkVNetRequest (source_vnet_id is serde-renamed to
srcTestnetId). -/
def ForkVNetRequest.toJsonFields (r : ForkVNetRequest) : List (String × Json) :=
  [("srcTestnetId", Json.str r.source_vnet_id),
   ("slug", Json.str r.slug),
   ("display_name", Json.str r.display_name)] ++
    optField "block_number" r.block_number Json.num

/-- Serialized shape of ListVNetsQuery. -/
def ListVNetsQuery.toJsonFields (q : ListVNetsQuery) : List (String × Json) :=
  optField "slug" q.slug Json.str ++
    optField "page" q.page Json.num ++
    optField "per_page" q.per_page Json.num

/-- Serialized shape of ListVNetTransactionsQuery. -/
def ListVNetTransactionsQuery.toJsonFields (q : ListVNetTransactionsQuery) :
    List (String × Json) :=
  optField "address" q.address Json.str ++
    optField "status" q.status Json.bool ++
    optField "page" q.page Json.num ++
    optField "per_page" q.per_page Json.num

/-- Serialized shape of VNetSimulationRequest (transaction_type is
serde-renamed to type). -/
def VNetSimulationRequest.toJsonFields (r : VNetSimulationRequest) :
    List (String × Json) :=
  [("from", Json.str r.from_),
   ("to", Json.str r.to_),
   ("input", Json.str r.input)] ++
    optField "value" r.value Json.str ++
    optField "gas" r.gas Json.num ++
    optField "gas_price" r.gas_price Json.str ++
    optField "max_fee_per_gas" r.max_fee_per_gas Json.str ++
    optField "max_priority_fee_per_gas" r.max_priority_fee_per_gas Json.str ++
    optField "type" r.transaction_type Json.num ++
    optField "nonce" r.nonce Json.num

/-- Serialized shape of UpdateVNetRequest. -/
def UpdateVNetRequest.toJsonFields (r : UpdateVNetRequest) :
    List (String × Json) :=
  optField "display_name" r.display_name Json.str ++
    optField "slug" r.slug Json.str ++
    optField "sync_state_config" r.sync_state_config
      (fun c => Json.obj c.toJsonFields) ++
    optField "explorer_page_config" r.explorer_page_config
      (fun c => Json.obj c.toJsonFields)

/-- Serialized shape of AccessListItem. -/
def AccessListItem.toJsonFields (a : AccessListItem) : List (String × Json) :=
  [("address", Json.str a.address),
   ("storage_keys", Json.arr (a.storage_keys.map Json.str))]

/-- Serialized shape of SendVNetTransactionRequest. -/
def SendVNetTransactionRequest.toJsonFields (r : SendVNetTransactionRequest) :
    List (String × Json) :=
  [("from", Json.str r.from_),
   ("to", Json.str r.to_)] ++
    optField "input" r.input Json.str ++
    optField "value" r.value Json.str ++
    optField "gas" r.gas Json.num ++
    optField "gas_price" r.gas_price Json.str ++
    optField "max_fee_per_gas" r.max_fee_per_gas Json.str ++
    optField "max_priority_fee_per_gas" r.max_priority_fee_per_gas Json.str ++
    optField "access_list" r.access_list
      (fun l => Json.arr (l.map (fun a => Json.obj a.toJsonFields)))

/-- The keys present in a serialized body. -/
def fieldKeys (l : List (String × Json)) : List String :=
  l.map Prod.fst

/-- The key contributed by an optional field: present exactly when the field
is set. -/
def optKeys {α : Type} (key : String) (o : Option α) : List String :=
  if o.isSome then [key] else []

/-! ### Modelled simulation request

SimulationRequest and its builders are declared in src/simulation/types.rs,
which is not among the embedded sources; they are modelled from the spec and
checked against the unit tests embedded from src/simulation/api.rs.
-/

/-- Modelled from the spec: the lowercase hexadecimal digit character for a
value below 16. -/
def hexDigitChar (n : Nat) : Char :=
  if n < 10 then Char.ofNat (48 + n) else Char.ofNat (87 + n)

/-- Hexadecimal digits of n, most significant first, empty for zero; the
first argument is recursion fuel, and any fuel at least n gives the exact
digits. -/
def hexDigitsAux : Nat → Nat → List Char
  | 0, _ => []
  | fuel + 1, n =>
    if n = 0 then [] else hexDigitsAux fuel (n / 16) ++ [hexDigitChar (n % 16)]

/-- Modelled from the spec: canonical hex mantissa, "0" for zero, otherwise
the digits of n without leading zeros. -/
def natToHexStr (n : Nat) : String :=
  if n = 0 then "0" else String.mk (hexDigitsAux n n)

/-- Modelled from the spec: the canonical 0x-prefixed lowercase hex encoding
of a wei amount. -/
def weiToHex (w : Nat) : String :=
  "0x" ++ natToHexStr w

/-- The numeric value of a hexadecimal digit character, none for any other
character. -/
def hexVal (c : Char) : Option Nat :=
  if 48 ≤ c.toNat ∧ c.toNat ≤ 57 then some (c.toNat - 48)
  else if 97 ≤ c.toNat ∧ c.toNat ≤ 102 then some (c.toNat - 87)
  else if 65 ≤ c.toNat ∧ c.toNat ≤ 70 then some (c.toNat - 55)
  else none

/-- Big-endian accumulation of hexadecimal digits; none on a non-digit. -/
def parseHexDigits : List Char → Nat → Option Nat
  | [], acc => some acc
  | c :: cs, acc =>
    match hexVal c with
    | none => none
    | some d => parseHexDigits cs (16 * acc + d)

/-- Parse a 0x-prefixed hexadecimal string back to a number. -/
def parseHexNat (s : String) : Option Nat :=
  match s.data with
  | '0' :: 'x' :: rest => parseHexDigits rest 0
  | _ => none

/-- Lookup in an association list; models map lookup for the string-keyed
override maps. -/
def assocFind {α : Type} : List (String × α) → String → Option α
  | [], _ => none
  | (k, v) :: m, key => if k = key then some v else assocFind m key

/-- Insert into an association list, replacing the entry of an existing key
and appending a fresh key; models map insert. -/
def assocPut {α : Type} : List (String × α) → String → α → List (String × α)
  | [], key, v => [(key, v)]
  | (k, w) :: m, key, v =>
    if k = key then (key, v) :: m else (k, w) :: assocPut m key v

/-- Modelled from the spec: the per-address override entry of
SimulationRequest.state_objects (balance, nonce, code, storage slots). -/
structure StateOverride where
  balance : Option String
  nonce : Option Nat
  code : Option String
  storage : List (String × String)

/-- The empty override entry. -/
def emptyOverride : StateOverride :=
  { balance := none, nonce := none, code := none, storage := [] }

/-- Modelled from the spec: struct SimulationRequest of
src/simulation/types.rs; the Rust fields from and to are embedded as from_
and to_. -/
structure SimulationRequest where
  network_id : Option String
  from_ : String
  to_ : String
  input : String
  value : Option String
  gas : Option Nat
  gas_price : Option String
  block_number : Option Nat
  save : Bool
  state_objects : Option (List (String × StateOverride))

/-- Modelled from the spec: SimulationRequest::new — no value, no gas, no
block number, no overrides, save false. -/
def SimulationRequest.new (from_ to_ input : String) : SimulationRequest where
  network_id := none
  from_ := from_
  to_ := to_
  input := input
  value := none
  gas := none
  gas_price := none
  block_number := none
  save := false
  state_objects := none

/-- Modelled from the spec: SimulationRequest::value_wei converts the amount
to canonical hex before storing it in value. -/
def SimulationRequest.value_wei (r : SimulationRequest) (amount : Nat) :
    SimulationRequest :=
  { r with value := some (weiToHex amount) }

/-- Shared shape of the three override builders: fetch or create the entry of
the address (the key is used verbatim), update it, put it back. -/
def SimulationRequest.modifyOverride (r : SimulationRequest) (address : String)
    (f : StateOverride → StateOverride) : SimulationRequest :=
  let m := r.state_objects.getD []
  let e := (assocFind m address).getD emptyOverride
  { r with state_objects := some (assocPut m address (f e)) }

/-- Modelled from the spec: SimulationRequest::override_balance. -/
def SimulationRequest.override_balance (r : SimulationRequest)
    (address balance : String) : SimulationRequest :=
  r.modifyOverride address (fun e => { e with balance := some balance })

/-- Modelled from the spec: SimulationRequest::override_code. -/
def SimulationRequest.override_code (r : SimulationRequest)
    (address code : String) : SimulationRequest :=
  r.modifyOverride address (fun e => { e with code := some code })

/-- Modelled from the spec: SimulationRequest::override_storage inserts the
slot into the storage map of the entry of the address. -/
def SimulationRequest.override_storage (r : SimulationRequest)
    (address slot value : String) : SimulationRequest :=
  r.modifyOverride address
    (fun e => { e with storage := assocPut e.storage slot value })

/-- A sequence of override_storage calls on one address, first call first. -/
def applyStorageList (r : SimulationRequest) (address : String)
    (l : List (String × String)) : SimulationRequest :=
  l.foldl (fun r p => r.override_storage address p.1 p.2) r

/-! ### Modelled path-segment encoding and the routes of
src/simulation/api.rs -/

/-- The uppercase hexadecimal digit character for a value below 16. -/
def upperHexChar (n : Nat) : Char :=
  if n < 10 then Char.ofNat (48 + n) else Char.ofNat (55 + n)

/-- UTF-8 bytes of a character. -/
def utf8Bytes (c : Char) : List Nat :=
  if c.toNat < 128 then [c.toNat]
  else if c.toNat < 2048 then [192 + c.toNat / 64, 128 + c.toNat % 64]
  else if c.toNat < 65536 then
    [224 + c.toNat / 4096, 128 + c.toNat / 64 % 64, 128 + c.toNat % 64]
  else
    [240 + c.toNat / 262144, 128 + c.toNat / 4096 % 64, 128 + c.toNat / 64 % 64,
     128 + c.toNat % 64]

/-- RFC 3986 unreserved characters, which pass through unencoded. -/
def isUnreserved (c : Char) : Bool :=
  c.isAlphanum || c == '-' || c == '.' || c == '_' || c == '~'

/-- Percent-encoding of one byte. -/
def pctByte (b : Nat) : List Char :=
  ['%', upperHexChar (b / 16), upperHexChar (b % 16)]

/-- Output characters for one input character. -/
def encodeChar (c : Char) : List Char :=
  if isUnreserved c then [c] else ((utf8Bytes c).map pctByte).flatten

/-- Modelled from the spec: encode_path_segment (declared in src/client.rs,
which is not among the embedded sources) percent-encodes an identifier for
use as a single URL path segment: unreserved characters pass through, every
other character is replaced by the percent-encoding of its UTF-8 bytes. -/
def encode_path_segment (s : String) : String :=
  String.mk ((s.data.map encodeChar).flatten)

/-- Route of SimulationApi::get. -/
def simulationGetRoute (id : String) : String :=
  "/simulations/" ++ encode_path_segment id

/-- Route of SimulationApi::info. -/
def simulationInfoRoute (id : String) : String :=
  "/simulations/" ++ encode_path_segment id ++ "/info"

/-- Route of SimulationApi::share. -/
def simulationShareRoute (id : String) : String :=
  "/simulations/" ++ encode_path_segment id ++ "/share"

/-- Route of SimulationApi::unshare. -/
def simulationUnshareRoute (id : String) : String :=
  "/simulations/" ++ encode_path_segment id ++ "/unshare"

/-- Route of SimulationApi::trace. -/
def traceRoute (hash : String) : String :=
  "/trace/" ++ encode_path_segment hash

/-- SimulationApi::share with the outcome of the underlying POST to the share
route passed as an argument: the error of a failed POST is propagated, a
successful POST yields the client-synthesized dashboard URL. -/
def SimulationApi.share (post : Except String Unit) (id : String) :
    Except String String :=
  match post with
  | Except.error e => Except.error e
  | Except.ok _ =>
    Except.ok
      ("https://dashboard.tenderly.co/shared/simulation/" ++
        encode_path_segment id)

/-- Number of path segments of a route: the pieces separated by the slash
character, which is one more than the number of slashes. -/
def segCount (s : String) : Nat :=
  s.data.count '/' + 1

/-! ### Helper lemmas -/

/-- List.find? returns exactly the first element satisfying the predicate:
the list splits into a prefix run of non-matching elements, the returned
element, and a remainder. -/
theorem find?_eq_some_iff_split {α : Type} (p : α → Bool) :
    ∀ (l : List α) (a : α),
      l.find? p = some a ↔
        ∃ pre suf, l = pre ++ a :: suf ∧ p a = true ∧ ∀ x ∈ pre, p x = false := by
  intro l
  induction l with
  | nil => intro a; simp
  | cons b bs ih =>
    intro a
    by_cases hb : p b = true
    · rw [List.find?_cons_of_pos _ hb]
      constructor
      · rintro ⟨rfl⟩
        exact ⟨[], bs, rfl, hb, by simp⟩
      · rintro ⟨pre, suf, heq, hpa, hpre⟩
        cases pre with
        | nil =>
          simp only [List.nil_append, List.cons.injEq] at heq
          rw [heq.1]
        | cons c cs =>
          simp only [List.cons_append, List.cons.injEq] at heq
          have : p b = false := heq.1 ▸ hpre c (List.mem_cons_self c cs)
          rw [this] at hb
          exact absurd hb (by simp)
    · rw [List.find?_cons_of_neg _ hb, ih a]
      constructor
      · rintro ⟨pre, suf, heq, hpa, hpre⟩
        refine ⟨b :: pre, suf, by simp [heq], hpa, ?_⟩
        intro x hx
        rcases List.mem_cons.1 hx with rfl | hx
        · exact Bool.not_eq_true _ ▸ (by simpa using hb)
        · exact hpre x hx
      · rintro ⟨pre, suf, heq, hpa, hpre⟩
        cases pre with
        | nil =>
          simp only [List.nil_append, List.cons.injEq] at heq
          rw [← heq.1] at hpa
          exact absurd hpa hb
        | cons c cs =>
          simp only [List.cons_append, List.cons.injEq] at heq
          exact ⟨cs, suf, heq.2, hpa, fun x hx => hpre x (List.mem_cons_of_mem c hx)⟩

/-- The url of the first endpoint matching a token is none exactly when no
endpoint matches. -/
theorem urlOfFirst_eq_none (tok : String) (l : List RpcEndpoint) :
    (l.find? (fun e => nameHasToken tok e.name)).map RpcEndpoint.url = none ↔
      ∀ e ∈ l, nameHasToken tok e.name = false := by
  rw [Option.map_eq_none', List.find?_eq_none]
  constructor
  · intro h e he
    simpa using h e he
  · intro h e he
    simp [h e he]

/-- The url of the first endpoint matching a token is some u exactly when the
endpoint list splits at a matching endpoint with url u, all endpoints before
it failing the match. -/
theorem urlOfFirst_eq_some (tok : String) (l : List RpcEndpoint) (u : String) :
    (l.find? (fun e => nameHasToken tok e.name)).map RpcEndpoint.url = some u ↔
      ∃ pre e suf, l = pre ++ e :: suf ∧ nameHasToken tok e.name = true ∧
        (∀ x ∈ pre, nameHasToken tok x.name = false) ∧ u = e.url := by
  rw [Option.map_eq_some']
  constructor
  · rintro ⟨e, hfind, rfl⟩
    obtain ⟨pre, suf, h1, h2, h3⟩ := (find?_eq_some_iff_split _ l e).1 hfind
    exact ⟨pre, e, suf, h1, by simpa using h2, fun x hx => by simpa using h3 x hx, rfl⟩
  · rintro ⟨pre, e, suf, h1, h2, h3, rfl⟩
    refine ⟨e, (find?_eq_some_iff_split _ l e).2 ⟨pre, suf, h1, by simpa using h2, ?_⟩, rfl⟩
    intro x hx
    simpa using h3 x hx

/-! ### Claim theorems -/

/-- C1: for every VNetRpcs value, public() returns the url of the first
endpoint in list order whose name case-insensitively contains "public", and
admin() the url of the first endpoint whose name case-insensitively contains
"admin"; with several matches the first in list order wins, and with no match
the result is none. -/
theorem rpc_resolution_first_match (r : VNetRpcs) :
    (r.public = none ↔ ∀ e ∈ r.endpoints, nameHasToken "public" e.name = false) ∧
    (∀ u, r.public = some u ↔
      ∃ pre e suf, r.endpoints = pre ++ e :: suf ∧
        nameHasToken "public" e.name = true ∧
        (∀ x ∈ pre, nameHasToken "public" x.name = false) ∧ u = e.url) ∧
    (r.admin = none ↔ ∀ e ∈ r.endpoints, nameHasToken "admin" e.name = false) ∧
    (∀ u, r.admin = some u ↔
      ∃ pre e suf, r.endpoints = pre ++ e :: suf ∧
        nameHasToken "admin" e.name = true ∧
        (∀ x ∈ pre, nameHasToken "admin" x.name = false) ∧ u = e.url) :=
  ⟨urlOfFirst_eq_none "public" r.endpoints,
   fun u => urlOfFirst_eq_some "public" r.endpoints u,
   urlOfFirst_eq_none "admin" r.endpoints,
   fun u => urlOfFirst_eq_some "admin" r.endpoints u⟩

/-- Witness for C1 on the concrete endpoint list of the spec example. -/
theorem rpc_resolution_first_match_witness :
    ((VNetRpcs.mk [⟨"Admin RPC", "u1"⟩, ⟨"Public RPC", "u2"⟩]).public = none ↔
      ∀ e ∈ (VNetRpcs.mk [⟨"Admin RPC", "u1"⟩, ⟨"Public RPC", "u2"⟩]).endpoints,
        nameHasToken "public" e.name = false) ∧
    (∀ u, (VNetRpcs.mk [⟨"Admin RPC", "u1"⟩, ⟨"Public RPC", "u2"⟩]).public = some u ↔
      ∃ pre e suf,
        (VNetRpcs.mk [⟨"Admin RPC", "u1"⟩, ⟨"Public RPC", "u2"⟩]).endpoints =
          pre ++ e :: suf ∧
        nameHasToken "public" e.name = true ∧
        (∀ x ∈ pre, nameHasToken "public" x.name = false) ∧ u = e.url) ∧
    ((VNetRpcs.mk [⟨"Admin RPC", "u1"⟩, ⟨"Public RPC", "u2"⟩]).admin = none ↔
      ∀ e ∈ (VNetRpcs.mk [⟨"Admin RPC", "u1"⟩, ⟨"Public RPC", "u2"⟩]).endpoints,
        nameHasToken "admin" e.name = false) ∧
    (∀ u, (VNetRpcs.mk [⟨"Admin RPC", "u1"⟩, ⟨"Public RPC", "u2"⟩]).admin = some u ↔
      ∃ pre e suf,
        (VNetRpcs.mk [⟨"Admin RPC", "u1"⟩, ⟨"Public RPC", "u2"⟩]).endpoints =
          pre ++ e :: suf ∧
        nameHasToken "admin" e.name = true ∧
        (∀ x ∈ pre, nameHasToken "admin" x.name = false) ∧ u = e.url) :=
  rpc_resolution_first_match (VNetRpcs.mk [⟨"Admin RPC", "u1"⟩, ⟨"Public RPC", "u2"⟩])

/-- C2: chain_id() on the response returns none when the nested chain_config
sub-object is absent and the nested chain id when it is present; no default
is substituted. -/
theorem response_chain_id_nested (r : VirtualNetworkConfigResponse) :
    (r.chain_id = none ↔ r.chain_config = none) ∧
    ∀ c, r.chain_config = some c → r.chain_id = some c.chain_id := by
  obtain ⟨cc, bf, ac⟩ := r
  cases cc with
  | none => exact ⟨by simp [VirtualNetworkConfigResponse.chain_id], by simp⟩
  | some c =>
    refine ⟨by simp [VirtualNetworkConfigResponse.chain_id], ?_⟩
    intro c₀ hc₀
    simp only [Option.some.injEq] at hc₀
    simp [VirtualNetworkConfigResponse.chain_id, hc₀]

/-- Witness for C2 on a response with a present nested chain config. -/
theorem response_chain_id_nested_witness :
    ((VirtualNetworkConfigResponse.mk (some ⟨42⟩) none none).chain_id = none ↔
      (VirtualNetworkConfigResponse.mk (some ⟨42⟩) none none).chain_config = none) ∧
    ∀ c, (VirtualNetworkConfigResponse.mk (some ⟨42⟩) none none).chain_config = some c →
      (VirtualNetworkConfigResponse.mk (some ⟨42⟩) none none).chain_id = some c.chain_id :=
  response_chain_id_nested (VirtualNetworkConfigResponse.mk (some ⟨42⟩) none none)

/-- C3: new(slug, display_name, network_id) sets both fork_config.network_id
and virtual_network_config.chain_id to network_id; afterwards chain_id(c)
changes only virtual_network_config.chain_id and block_number(b) changes
only fork_config.block_number. -/
theorem create_vnet_defaults_and_frames (slug dn : String) (nid : Nat)
    (r : CreateVNetRequest) (c b : Nat) :
    ((CreateVNetRequest.new slug dn nid).fork_config.network_id = nid ∧
      (CreateVNetRequest.new slug dn nid).virtual_network_config.chain_id = nid) ∧
    ((r.chain_id c).virtual_network_config.chain_id = c ∧
      (r.chain_id c).virtual_network_config.base_fee_per_gas =
        r.virtual_network_config.base_fee_per_gas ∧
      (r.chain_id c).fork_config = r.fork_config ∧
      (r.chain_id c).slug = r.slug ∧
      (r.chain_id c).display_name = r.display_name ∧
      (r.chain_id c).sync_state_config = r.sync_state_config ∧
      (r.chain_id c).explorer_page_config = r.explorer_page_config) ∧
    ((r.block_number b).fork_config.block_number = some b ∧
      (r.block_number b).fork_config.network_id = r.fork_config.network_id ∧
      (r.block_number b).virtual_network_config = r.virtual_network_config ∧
      (r.block_number b).slug = r.slug ∧
      (r.block_number b).display_name = r.display_name ∧
      (r.block_number b).sync_state_config = r.sync_state_config ∧
      (r.block_number b).explorer_page_config = r.explorer_page_config) :=
  ⟨⟨rfl, rfl⟩, ⟨rfl, rfl, rfl, rfl, rfl, rfl, rfl⟩,
   ⟨rfl, rfl, rfl, rfl, rfl, rfl, rfl⟩⟩

/-- C6: a single-id delete request equals the one-element multiple-id
request, so it serializes in the same list shape. -/
theorem delete_single_eq_multiple (id : String) :
    DeleteVNetsRequest.single id = DeleteVNetsRequest.multiple [id] :=
  rfl

/-- C7: when the POST with empty body succeeds, share(id) returns exactly the
client-synthesized dashboard URL built from the path-segment-encoded id; when
the POST fails, share(id) propagates that error and yields no URL. -/
theorem share_synthesizes_url (id e : String) :
    SimulationApi.share (Except.ok ()) id =
      Except.ok ("https://dashboard.tenderly.co/shared/simulation/" ++
        encode_path_segment id) ∧
    SimulationApi.share (Except.error e) id = Except.error e :=
  ⟨rfl, rfl⟩

/-- C10: max_fee_per_gas and max_priority_fee_per_gas each also set the
transaction type to 2, overwriting any previously set transaction type. -/
theorem eip1559_fee_setters_force_type2 (r : VNetSimulationRequest)
    (f : String) (t : Nat) :
    (r.set_max_fee_per_gas f).transaction_type = some 2 ∧
    (r.set_max_priority_fee_per_gas f).transaction_type = some 2 ∧
    ((r.set_transaction_type t).set_max_fee_per_gas f).transaction_type = some 2 ∧
    ((r.set_transaction_type t).set_max_priority_fee_per_gas f).transaction_type =
      some 2 ∧
    (r.set_max_fee_per_gas f).max_fee_per_gas = some f ∧
    (r.set_max_priority_fee_per_gas f).max_priority_fee_per_gas = some f :=
  ⟨rfl, rfl, rfl, rfl, rfl, rfl⟩

/-! ### Hex codec lemmas and C4 -/

/-- A lowercase hexadecimal digit character. -/
def isLowerHexDigit (c : Char) : Bool :=
  (48 ≤ c.toNat && c.toNat ≤ 57) || (97 ≤ c.toNat && c.toNat ≤ 102)

/-- Digit characters round-trip through hexVal. -/
theorem hexVal_hexDigitChar : ∀ m : Nat, m < 16 → hexVal (hexDigitChar m) = some m := by
  decide

/-- Digit characters are lowercase hexadecimal digits. -/
theorem isLowerHexDigit_hexDigitChar :
    ∀ m : Nat, m < 16 → isLowerHexDigit (hexDigitChar m) = true := by
  decide

/-- A nonzero digit does not print as the zero character. -/
theorem hexDigitChar_ne_zero : ∀ m : Nat, m < 16 → 0 < m → hexDigitChar m ≠ '0' := by
  decide

/-- Parsing a concatenation parses the left part and feeds its accumulator to
the right part. -/
theorem parseHexDigits_append (l₁ l₂ : List Char) :
    ∀ acc, parseHexDigits (l₁ ++ l₂) acc =
      match parseHexDigits l₁ acc with
      | none => none
      | some a => parseHexDigits l₂ a := by
  induction l₁ with
  | nil => intro acc; rfl
  | cons c cs ih =>
    intro acc
    show parseHexDigits (c :: (cs ++ l₂)) acc = _
    cases h : hexVal c with
    | none => simp [parseHexDigits, h]
    | some d => simp [parseHexDigits, h, ih]

/-- The one-step unfolding of hexDigitsAux at positive fuel and value. -/
theorem hexDigitsAux_succ (fuel n : Nat) (hn : ¬ n = 0) :
    hexDigitsAux (fuel + 1) n =
      hexDigitsAux fuel (n / 16) ++ [hexDigitChar (n % 16)] := by
  simp [hexDigitsAux, hn]

/-- Parsing the digit run of n yields n back (big-endian accumulation). -/
theorem hexDigitsAux_spec (fuel : Nat) : ∀ n acc, n ≤ fuel →
    parseHexDigits (hexDigitsAux fuel n) acc =
      some (acc * 16 ^ (hexDigitsAux fuel n).length + n) := by
  induction fuel with
  | zero =>
    intro n acc h
    have hn : n = 0 := by omega
    subst hn
    simp [hexDigitsAux, parseHexDigits]
  | succ fuel ih =>
    intro n acc h
    by_cases hn : n = 0
    · subst hn
      simp [hexDigitsAux, parseHexDigits]
    · have h16 : n % 16 < 16 := Nat.mod_lt _ (by norm_num)
      have hle : n / 16 ≤ fuel := by
        have := Nat.div_lt_self (Nat.pos_of_ne_zero hn) (by norm_num : 1 < 16)
        omega
      rw [hexDigitsAux_succ fuel n hn, parseHexDigits_append, ih (n / 16) acc hle]
      simp only [parseHexDigits, hexVal_hexDigitChar (n % 16) h16,
        List.length_append, List.length_cons, List.length_nil]
      congr 1
      have hdm : 16 * (n / 16) + n % 16 = n := Nat.div_add_mod n 16
      calc 16 * (acc * 16 ^ (hexDigitsAux fuel (n / 16)).length + n / 16) + n % 16
          = acc * (16 ^ (hexDigitsAux fuel (n / 16)).length * 16) +
              (16 * (n / 16) + n % 16) := by ring
        _ = acc * 16 ^ ((hexDigitsAux fuel (n / 16)).length + (0 + 1)) + n := by
              rw [hdm, Nat.zero_add, pow_succ]

/-- Every character printed by hexDigitsAux is a lowercase hex digit. -/
theorem hexDigitsAux_digits (fuel : Nat) : ∀ n, ∀ c ∈ hexDigitsAux fuel n,
    isLowerHexDigit c = true := by
  induction fuel with
  | zero => intro n c hc; simp [hexDigitsAux] at hc
  | succ fuel ih =>
    intro n c hc
    by_cases hn : n = 0
    · subst hn; simp [hexDigitsAux] at hc
    · rw [hexDigitsAux_succ fuel n hn] at hc
      rcases List.mem_append.1 hc with hc | hc
      · exact ih (n / 16) c hc
      · rw [List.mem_singleton] at hc
        subst hc
        exact isLowerHexDigit_hexDigitChar (n % 16) (Nat.mod_lt _ (by norm_num))

/-- For positive n the digit run starts with a nonzero digit. -/
theorem hexDigitsAux_head (fuel : Nat) : ∀ n, 0 < n → n ≤ fuel →
    ∃ c l, hexDigitsAux fuel n = c :: l ∧ c ≠ '0' := by
  induction fuel with
  | zero => intro n h1 h2; omega
  | succ fuel ih =>
    intro n h1 h2
    have hn : ¬ n = 0 := by omega
    rw [hexDigitsAux_succ fuel n hn]
    by_cases hq : n / 16 = 0
    · have hlt : n < 16 := by omega
      have hmod : n % 16 = n := Nat.mod_eq_of_lt hlt
      have h0 : hexDigitsAux fuel (n / 16) = [] := by
        rw [hq]; cases fuel <;> rfl
      rw [h0, List.nil_append]
      exact ⟨hexDigitChar (n % 16), [], rfl, by
        rw [hmod]; exact hexDigitChar_ne_zero n hlt h1⟩
    · have hpos : 0 < n / 16 := Nat.pos_of_ne_zero hq
      have hle : n / 16 ≤ fuel := by
        have := Nat.div_lt_self h1 (by norm_num : 1 < 16)
        omega
      obtain ⟨c, l, hcl, hc⟩ := ih (n / 16) hpos hle
      exact ⟨c, l ++ [hexDigitChar (n % 16)], by rw [hcl]; rfl, hc⟩

/-- Parsing a 0x-prefixed string parses the mantissa from accumulator 0. -/
theorem parseHexNat_mk (l : List Char) :
    parseHexNat ("0x" ++ String.mk l) = parseHexDigits l 0 :=
  rfl

/-- The mantissa of a positive number is its digit run. -/
theorem natToHexStr_pos (w : Nat) (hw : ¬ w = 0) :
    natToHexStr w = String.mk (hexDigitsAux w w) := by
  simp [natToHexStr, hw]

/-- C4: value_wei(w) stores a 0x-prefixed lowercase hexadecimal string with
no leading zeros that parses back to w; value_wei(0) stores exactly "0x0". -/
theorem value_wei_canonical_hex (r : SimulationRequest) (w : Nat) :
    (r.value_wei w).value = some ("0x" ++ natToHexStr w) ∧
    parseHexNat ("0x" ++ natToHexStr w) = some w ∧
    (∀ c ∈ (natToHexStr w).data, isLowerHexDigit c = true) ∧
    (0 < w → (natToHexStr w).data.head? ≠ some '0') ∧
    "0x" ++ natToHexStr 0 = "0x0" := by
  refine ⟨rfl, ?_, ?_, ?_, rfl⟩
  · by_cases hw : w = 0
    · subst hw; rfl
    · rw [natToHexStr_pos w hw, parseHexNat_mk, hexDigitsAux_spec w w 0 le_rfl]
      simp
  · intro c hc
    by_cases hw : w = 0
    · subst hw
      simp only [natToHexStr, if_pos rfl] at hc
      rcases List.mem_singleton.1 hc with rfl
      decide
    · rw [natToHexStr_pos w hw] at hc
      exact hexDigitsAux_digits w w c hc
  · intro hw
    have hne : ¬ w = 0 := by omega
    rw [natToHexStr_pos w hne]
    obtain ⟨c, l, hcl, hc⟩ := hexDigitsAux_head w w hw le_rfl
    show (hexDigitsAux w w).head? ≠ some '0'
    rw [hcl]
    simp [hc]

/-- Witness for C4: the wei amount of the unit test of
src/simulation/api.rs encodes to its asserted value. -/
theorem value_wei_canonical_hex_witness :
    ((SimulationRequest.new "0x1234" "0x5678" "0xabcd").value_wei
      1000000000000000000).value = some "0xde0b6b3a7640000" := by
  have h := value_wei_canonical_hex
    (SimulationRequest.new "0x1234" "0x5678" "0xabcd") 1000000000000000000
  rw [h.1]
  decide

/-! ### Override accumulation lemmas and C5 -/

/-- Lookup after inserting the same key finds the inserted value. -/
theorem assocFind_put_self {α : Type} (m : List (String × α)) (k : String) (v : α) :
    assocFind (assocPut m k v) k = some v := by
  induction m with
  | nil => simp [assocPut, assocFind]
  | cons p m ih =>
    obtain ⟨k₁, v₁⟩ := p
    by_cases h : k₁ = k
    · simp [assocPut, h, assocFind]
    · simp [assocPut, h, assocFind, ih]

/-- Lookup after inserting a different key is unchanged. -/
theorem assocFind_put_ne {α : Type} (m : List (String × α)) (k k₂ : String)
    (v : α) (h : k ≠ k₂) : assocFind (assocPut m k₂ v) k = assocFind m k := by
  have h₀ : ¬ k₂ = k := fun hh => h hh.symm
  induction m with
  | nil => simp [assocPut, assocFind, h₀]
  | cons p m ih =>
    obtain ⟨k₁, v₁⟩ := p
    by_cases h₁ : k₁ = k₂
    · subst h₁
      simp [assocPut, assocFind, h₀]
    · by_cases h₂ : k₁ = k <;> simp [assocPut, assocFind, h₁, h₂, h, ih]

/-- The stored value of a storage slot of the entry of an address, if any. -/
def storageSlotVal (r : SimulationRequest) (address slot : String) :
    Option String :=
  match assocFind (r.state_objects.getD []) address with
  | none => none
  | some e => assocFind e.storage slot

/-- override_storage stores the slot value it was given. -/
theorem storageSlotVal_step_self (r : SimulationRequest) (a s v : String) :
    storageSlotVal (r.override_storage a s v) a s = some v := by
  simp [storageSlotVal, SimulationRequest.override_storage,
    SimulationRequest.modifyOverride, assocFind_put_self]

/-- override_storage of one slot leaves every other slot of the same address
as it was. -/
theorem storageSlotVal_step_ne (r : SimulationRequest) (a s s₂ v₂ : String)
    (h : s ≠ s₂) :
    storageSlotVal (r.override_storage a s₂ v₂) a s = storageSlotVal r a s := by
  have hput : ∀ st : List (String × String),
      assocFind (assocPut st s₂ v₂) s = assocFind st s :=
    fun st => assocFind_put_ne st s s₂ v₂ h
  have hss : ¬ s₂ = s := fun hh => h hh.symm
  cases hm : assocFind (r.state_objects.getD []) a with
  | none =>
    simp [storageSlotVal, SimulationRequest.override_storage,
      SimulationRequest.modifyOverride, hm, assocFind_put_self, hput,
      emptyOverride, assocFind, hss]
  | some e =>
    simp [storageSlotVal, SimulationRequest.override_storage,
      SimulationRequest.modifyOverride, hm, assocFind_put_self, hput]

/-- A run of override_storage calls that never touches slot s leaves the
stored value of s unchanged. -/
theorem applyStorageList_frame (a s : String) (l : List (String × String))
    (hl : ∀ p ∈ l, p.1 ≠ s) :
    ∀ r, storageSlotVal (applyStorageList r a l) a s = storageSlotVal r a s := by
  induction l with
  | nil => intro r; rfl
  | cons q l ih =>
    intro r
    have hstep : applyStorageList r a (q :: l) =
        applyStorageList (r.override_storage a q.1 q.2) a l := rfl
    rw [hstep, ih (fun p hp => hl p (List.mem_cons_of_mem q hp)),
      storageSlotVal_step_ne]
    exact fun hs => hl q (List.mem_cons_self q l) hs.symm

/-- After a run of override_storage calls with pairwise distinct slots, every
inserted slot is stored with its value. -/
theorem applyStorageList_all_slots :
    ∀ (l : List (String × String)) (r : SimulationRequest) (a : String),
      (l.map Prod.fst).Nodup →
      ∀ p ∈ l, storageSlotVal (applyStorageList r a l) a p.1 = some p.2 := by
  intro l
  induction l with
  | nil => intro r a _ p hp; simp at hp
  | cons q l ih =>
    intro r a hnd p hp
    have hstep : applyStorageList r a (q :: l) =
        applyStorageList (r.override_storage a q.1 q.2) a l := rfl
    have hnotin : q.1 ∉ l.map Prod.fst := by
      have := hnd
      rw [List.map_cons, List.nodup_cons] at this
      exact this.1
    rcases List.mem_cons.1 hp with rfl | hp
    · rw [hstep, applyStorageList_frame a p.1 l ?hne, storageSlotVal_step_self]
      case hne =>
        intro x hx hx1
        exact hnotin (hx1 ▸ List.mem_map_of_mem Prod.fst hx)
    · have hnd₂ : (l.map Prod.fst).Nodup := by
        have := hnd
        rw [List.map_cons, List.nodup_cons] at this
        exact this.2
      exact ih (r.override_storage a q.1 q.2) a hnd₂ p hp

/-- C5: overrides for one address accumulate into a single per-address entry:
a run of override_storage calls with pairwise distinct slots leaves every
inserted slot present in the entry of the address, and a mixed run of
override_balance, override_storage and override_code on one address leaves
all three pieces present in that one entry. -/
theorem overrides_accumulate (r : SimulationRequest) (a : String)
    (l : List (String × String)) (hnd : (l.map Prod.fst).Nodup) :
    (∀ p ∈ l, ∃ e,
      assocFind ((applyStorageList r a l).state_objects.getD []) a = some e ∧
        assocFind e.storage p.1 = some p.2) ∧
    (∀ bal cd s v, ∃ e,
      assocFind ((((r.override_balance a bal).override_storage a s
          v).override_code a cd).state_objects.getD []) a = some e ∧
        e.balance = some bal ∧ e.code = some cd ∧
        assocFind e.storage s = some v) := by
  constructor
  · intro p hp
    have h := applyStorageList_all_slots l r a hnd p hp
    rw [storageSlotVal] at h
    cases hm : assocFind ((applyStorageList r a l).state_objects.getD []) a with
    | none => rw [hm] at h; exact absurd h (by simp)
    | some e =>
      rw [hm] at h
      exact ⟨e, rfl, h⟩
  · intro bal cd s v
    simp only [SimulationRequest.override_balance,
      SimulationRequest.override_storage, SimulationRequest.override_code,
      SimulationRequest.modifyOverride, Option.getD_some, assocFind_put_self]
    exact ⟨_, rfl, rfl, rfl, assocFind_put_self _ _ _⟩

/-- Witness for C5: two override_storage calls with the distinct slots of the
unit test of src/simulation/api.rs. -/
theorem overrides_accumulate_witness :
    (([("0x0", "0x1"), ("0x1", "0x2")].map
        (Prod.fst (α := String) (β := String))).Nodup) ∧
    ((∀ p ∈ [("0x0", "0x1"), ("0x1", "0x2")], ∃ e,
      assocFind ((applyStorageList (SimulationRequest.new "0x1234" "0x5678"
          "0xabcd") "0xbbbb" [("0x0", "0x1"), ("0x1", "0x2")]).state_objects.getD
          []) "0xbbbb" = some e ∧
        assocFind e.storage p.1 = some p.2) ∧
    (∀ bal cd s v, ∃ e,
      assocFind (((((SimulationRequest.new "0x1234" "0x5678"
          "0xabcd").override_balance "0xbbbb" bal).override_storage "0xbbbb" s
          v).override_code "0xbbbb" cd).state_objects.getD []) "0xbbbb" =
            some e ∧
        e.balance = some bal ∧ e.code = some cd ∧
        assocFind e.storage s = some v)) :=
  ⟨by decide,
   overrides_accumulate (SimulationRequest.new "0x1234" "0x5678" "0xabcd")
     "0xbbbb" [("0x0", "0x1"), ("0x1", "0x2")] (by decide)⟩

/-! ### Path-segment encoding lemmas and C8 -/

/-- Every UTF-8 byte is below 256. -/
theorem utf8Bytes_lt (c : Char) : ∀ b ∈ utf8Bytes c, b < 256 := by
  have hc : c.toNat < 1114112 := by
    rcases c.valid with h | ⟨_, h⟩ <;> simp [Char.toNat] <;> omega
  intro b hb
  simp only [utf8Bytes] at hb
  split_ifs at hb with h₁ h₂ h₃
  · simp only [List.mem_singleton] at hb
    omega
  · simp only [List.mem_cons, List.not_mem_nil, or_false] at hb
    rcases hb with rfl | rfl <;> omega
  · simp only [List.mem_cons, List.not_mem_nil, or_false] at hb
    rcases hb with rfl | rfl | rfl <;> omega
  · simp only [List.mem_cons, List.not_mem_nil, or_false] at hb
    rcases hb with rfl | rfl | rfl | rfl <;> omega

/-- The characters of a percent-encoded byte are never a slash or a question
mark. -/
theorem pctByte_chars (b : Nat) (hb : b < 256) :
    ∀ c ∈ pctByte b, c ≠ '/' ∧ c ≠ '?' := by
  have h₁ : b / 16 < 16 := by omega
  have h₂ : b % 16 < 16 := by omega
  have hx : ∀ m : Nat, m < 16 → upperHexChar m ≠ '/' ∧ upperHexChar m ≠ '?' := by
    decide
  intro c hc
  simp only [pctByte, List.mem_cons, List.not_mem_nil, or_false] at hc
  rcases hc with rfl | rfl | rfl
  · exact ⟨by decide, by decide⟩
  · exact hx _ h₁
  · exact hx _ h₂

/-- The output characters for any input character are never a slash or a
question mark. -/
theorem encodeChar_chars (c₀ : Char) : ∀ c ∈ encodeChar c₀, c ≠ '/' ∧ c ≠ '?' := by
  intro c hc
  by_cases h : isUnreserved c₀ = true
  · rw [encodeChar, if_pos h, List.mem_singleton] at hc
    subst hc
    constructor <;> rintro rfl <;> exact absurd h (by decide)
  · rw [encodeChar, if_neg h, List.mem_flatten] at hc
    obtain ⟨l, hl, hcl⟩ := hc
    rw [List.mem_map] at hl
    obtain ⟨b, hb, rfl⟩ := hl
    exact pctByte_chars b (utf8Bytes_lt c₀ b hb) c hcl

/-- No character of an encoded path segment is a slash or a question mark. -/
theorem encodeSeg_chars (s : String) :
    ∀ c ∈ (encode_path_segment s).data, c ≠ '/' ∧ c ≠ '?' := by
  intro c hc
  have hc₂ : c ∈ (s.data.map encodeChar).flatten := hc
  rw [List.mem_flatten] at hc₂
  obtain ⟨l, hl, hcl⟩ := hc₂
  rw [List.mem_map] at hl
  obtain ⟨c₀, _, rfl⟩ := hl
  exact encodeChar_chars c₀ c hcl

/-- An encoded path segment contains no slash at all. -/
theorem encodeSeg_slash_count (s : String) :
    (encode_path_segment s).data.count '/' = 0 :=
  List.count_eq_zero.mpr (fun hc => (encodeSeg_chars s _ hc).1 rfl)

/-- The get route always has three path segments. -/
theorem segCount_get (id : String) : segCount (simulationGetRoute id) = 3 := by
  rw [segCount, simulationGetRoute, String.data_append, List.count_append,
    encodeSeg_slash_count]
  decide

/-- The info route always has four path segments. -/
theorem segCount_info (id : String) : segCount (simulationInfoRoute id) = 4 := by
  rw [segCount, simulationInfoRoute, String.data_append, String.data_append,
    List.count_append, List.count_append, encodeSeg_slash_count]
  decide

/-- The share route always has four path segments. -/
theorem segCount_share (id : String) : segCount (simulationShareRoute id) = 4 := by
  rw [segCount, simulationShareRoute, String.data_append, String.data_append,
    List.count_append, List.count_append, encodeSeg_slash_count]
  decide

/-- The unshare route always has four path segments. -/
theorem segCount_unshare (id : String) :
    segCount (simulationUnshareRoute id) = 4 := by
  rw [segCount, simulationUnshareRoute, String.data_append, String.data_append,
    List.count_append, List.count_append, encodeSeg_slash_count]
  decide

/-- The trace route always has three path segments. -/
theorem segCount_trace (hash : String) : segCount (traceRoute hash) = 3 := by
  rw [segCount, traceRoute, String.data_append, List.count_append,
    encodeSeg_slash_count]
  decide

/-- C8: the five lifecycle routes percent-encode the id as a single path
segment, so every id (slashes, question marks, spaces, non-ASCII included)
yields a route with the same number of path segments, and the encoded id
contains neither a slash nor a question mark. -/
theorem routes_single_segment (id₁ id₂ : String) :
    segCount (simulationGetRoute id₁) = segCount (simulationGetRoute id₂) ∧
    segCount (simulationInfoRoute id₁) = segCount (simulationInfoRoute id₂) ∧
    segCount (simulationShareRoute id₁) = segCount (simulationShareRoute id₂) ∧
    segCount (simulationUnshareRoute id₁) =
      segCount (simulationUnshareRoute id₂) ∧
    segCount (traceRoute id₁) = segCount (traceRoute id₂) ∧
    (∀ c ∈ (encode_path_segment id₁).data, c ≠ '/' ∧ c ≠ '?') :=
  ⟨(segCount_get id₁).trans (segCount_get id₂).symm,
   (segCount_info id₁).trans (segCount_info id₂).symm,
   (segCount_share id₁).trans (segCount_share id₂).symm,
   (segCount_unshare id₁).trans (segCount_unshare id₂).symm,
   (segCount_trace id₁).trans (segCount_trace id₂).symm,
   encodeSeg_chars id₁⟩

/-! ### Serialization omission lemmas and C9 -/

/-- Keys of an optional field: exactly the key when set, nothing when
unset. -/
theorem fieldKeys_optField {α : Type} (k : String) (o : Option α)
    (f : α → Json) : fieldKeys (optField k o f) = optKeys k o := by
  cases o <;> rfl

/-- Keys distribute over concatenation of field lists. -/
theorem fieldKeys_append (l₁ l₂ : List (String × Json)) :
    fieldKeys (l₁ ++ l₂) = fieldKeys l₁ ++ fieldKeys l₂ :=
  List.map_append Prod.fst l₁ l₂

/-- C9: in every request and query type, each optional field that is unset is
omitted entirely from the serialized wire shape — the key list of the body is
the required keys followed by exactly the keys of the fields that are set. -/
theorem unset_optional_fields_omitted :
    (∀ r : CreateVNetRequest, fieldKeys r.toJsonFields =
      ["slug", "display_name", "fork_config", "virtual_network_config"] ++
        optKeys "sync_state_config" r.sync_state_config ++
        optKeys "explorer_page_config" r.explorer_page_config) ∧
    (∀ c : ForkConfig, fieldKeys c.toJsonFields =
      ["network_id"] ++ optKeys "block_number" c.block_number) ∧
    (∀ r : ForkVNetRequest, fieldKeys r.toJsonFields =
      ["srcTestnetId", "slug", "display_name"] ++
        optKeys "block_number" r.block_number) ∧
    (∀ r : UpdateVNetRequest, fieldKeys r.toJsonFields =
      optKeys "display_name" r.display_name ++ optKeys "slug" r.slug ++
        optKeys "sync_state_config" r.sync_state_config ++
        optKeys "explorer_page_config" r.explorer_page_config) ∧
    (∀ q : ListVNetsQuery, fieldKeys q.toJsonFields =
      optKeys "slug" q.slug ++ optKeys "page" q.page ++
        optKeys "per_page" q.per_page) ∧
    (∀ q : ListVNetTransactionsQuery, fieldKeys q.toJsonFields =
      optKeys "address" q.address ++ optKeys "status" q.status ++
        optKeys "page" q.page ++ optKeys "per_page" q.per_page) ∧
    (∀ r : VNetSimulationRequest, fieldKeys r.toJsonFields =
      ["from", "to", "input"] ++ optKeys "value" r.value ++
        optKeys "gas" r.gas ++ optKeys "gas_price" r.gas_price ++
        optKeys "max_fee_per_gas" r.max_fee_per_gas ++
        optKeys "max_priority_fee_per_gas" r.max_priority_fee_per_gas ++
        optKeys "type" r.transaction_type ++ optKeys "nonce" r.nonce) ∧
    (∀ r : SendVNetTransactionRequest, fieldKeys r.toJsonFields =
      ["from", "to"] ++ optKeys "input" r.input ++ optKeys "value" r.value ++
        optKeys "gas" r.gas ++ optKeys "gas_price" r.gas_price ++
        optKeys "max_fee_per_gas" r.max_fee_per_gas ++
        optKeys "max_priority_fee_per_gas" r.max_priority_fee_per_gas ++
        optKeys "access_list" r.access_list) := by
  refine ⟨?_, ?_, ?_, ?_, ?_, ?_, ?_, ?_⟩
  · intro r
    simp only [CreateVNetRequest.toJsonFields, fieldKeys_append,
      fieldKeys_optField]
    rfl
  · intro c
    simp only [ForkConfig.toJsonFields, fieldKeys_append, fieldKeys_optField]
    rfl
  · intro r
    simp only [ForkVNetRequest.toJsonFields, fieldKeys_append,
      fieldKeys_optField]
    rfl
  · intro r
    simp only [UpdateVNetRequest.toJsonFields, fieldKeys_append,
      fieldKeys_optField]
  · intro q
    simp only [ListVNetsQuery.toJsonFields, fieldKeys_append, fieldKeys_optField]
  · intro q
    simp only [ListVNetTransactionsQuery.toJsonFields, fieldKeys_append,
      fieldKeys_optField]
  · intro r
    simp only [VNetSimulationRequest.toJsonFields, fieldKeys_append,
      fieldKeys_optField]
    rfl
  · intro r
    simp only [SendVNetTransactionRequest.toJsonFields, fieldKeys_append,
      fieldKeys_optField]
    rfl

end Tndrly
